import Mathlib

/-!
Shallow embedding of the hello-go authentication and user services.

The embedding covers: JWT issuance and validation (`AuthServer.generateToken`,
`AuthServer.ValidateToken`, `middleware.JWTValidator.ValidateToken`,
`mockAuthService.ValidateToken`), login and registration in both the live and
the mock auth service, and the user server's authentication, ownership gate
and mock CRUD store. Cryptographic HMAC signatures are modelled symbolically
(a signature records the signing secret and the signed payload, so signatures
agree exactly when secret and payload agree), Go maps are modelled as lists,
and wall-clock times are integers (Unix seconds).
-/

instance {ε α : Type} [DecidableEq ε] [DecidableEq α] : DecidableEq (Except ε α)
  | .error e, .error f => decidable_of_iff (e = f) (by simp)
  | .ok a, .ok b => decidable_of_iff (a = b) (by simp)
  | .error _, .ok _ => isFalse (fun h => Except.noConfusion h)
  | .ok _, .error _ => isFalse (fun h => Except.noConfusion h)

/-- gRPC status codes produced by the servers (via `google.golang.org/grpc/codes`). -/
inductive Code
  | invalidArgument
  | unauthenticated
  | internal
  | notFound
  | permissionDenied
  | alreadyExists
deriving DecidableEq, Repr

/-- JWT signing method of a token, as inspected by the Go keyfunc checks:
HMAC (HS256 as minted by `generateToken`), or some non-HMAC method. -/
inductive Alg
  | hs256
  | otherAlg
deriving DecidableEq, Repr

/-- Registered claims carried by the tokens this system mints and checks:
`sub`, `exp`, `iat`. A field is `none` when the claim is absent from the
token or not of the expected JSON type. -/
structure Claims where
  sub : Option String
  exp : Option Int
  iat : Option Int
deriving DecidableEq, Repr

/-- Symbolic HMAC signature over the encoded claims: collision resistance is
modelled by letting the signature record the signing secret and the signed
claims, so two signatures agree exactly when both secret and payload agree. -/
def hmacSig (secret : String) (c : Claims) : String × Claims :=
  (secret, c)

/-- A decodable JWT: payload claims, header algorithm, and signature. -/
structure SignedToken where
  claims : Claims
  alg : Alg
  sig : String × Claims
deriving DecidableEq, Repr

/-- A token string handed to a validator: the empty string, a non-empty string
that does not decode as a JWT, or a decodable signed token. -/
inductive TokenStr
  | emptyTok
  | garbled
  | tok (t : SignedToken)
deriving DecidableEq, Repr

/-- Default claim validation of `golang-jwt/v5`: when `exp` is present the
token is valid only while `now < exp` (`iat` is not validated by default). -/
def expOk (now : Int) (c : Claims) : Bool :=
  match c.exp with
  | none => true
  | some e => decide (now < e)

/-- `jwt.Parse` with a byte-slice HMAC key, returning the claims when the
token parses and is valid, and `none` on any decode, signature or claim
error. `checkMethod` is true when the keyfunc rejects non-HMAC signing
methods (`AuthServer.ValidateToken` and `JWTValidator.ValidateToken` do,
`mockAuthService.ValidateToken` does not); either way a non-HMAC token fails
signature verification against the byte-slice key, so the outcome agrees. -/
def jwtParse (checkMethod : Bool) (secret : String) (now : Int) : TokenStr → Option Claims
  | .emptyTok => none
  | .garbled => none
  | .tok t =>
    if checkMethod = true ∧ t.alg ≠ .hs256 then none
    else if t.alg = .hs256 ∧ t.sig = hmacSig secret t.claims ∧ expOk now t.claims = true then
      some t.claims
    else none

/-- `AuthServer.generateToken`: claims `sub = userID`, `exp = iat + expiration`,
`iat`, signed HS256 with the configured shared secret. -/
def AuthServer.generateToken (secret : String) (expiration iat : Int) (userID : String) : TokenStr :=
  let c : Claims := { sub := some userID, exp := some (iat + expiration), iat := some iat }
  .tok { claims := c, alg := .hs256, sig := hmacSig secret c }

/-- The gRPC `ValidateTokenResponse` message. -/
structure ValidateTokenResponse where
  valid : Bool
  userId : String
deriving DecidableEq, Repr

/-- `AuthServer.ValidateToken`: an empty token is rejected with an
`InvalidArgument` error; a parse failure, invalid token, or missing/non-string
`sub` claim yields `{valid:false, userId:""}`; otherwise
`{valid:true, userId:sub}`. -/
def AuthServer.ValidateToken (secret : String) (now : Int) (ts : TokenStr) :
    Except Code ValidateTokenResponse :=
  if ts = .emptyTok then .error .invalidArgument
  else
    match jwtParse true secret now ts with
    | none => .ok ⟨false, ""⟩
    | some c =>
      match c.sub with
      | none => .ok ⟨false, ""⟩
      | some uid => .ok ⟨true, uid⟩

/-- Result triple `(valid, userID, err)` of the Go token-validator interface
`ValidateToken(ctx, token) (bool, string, error)`. -/
structure VResult where
  valid : Bool
  userID : String
  err : Option String
deriving DecidableEq, Repr

/-- `middleware.JWTValidator.ValidateToken`: an empty token and every routine
validation failure return `(false, "", nil)`; a valid token returns
`(true, sub, nil)`. Every return site in the source carries a nil error. -/
def JWTValidator.ValidateToken (jwtSecret : String) (now : Int) (ts : TokenStr) : VResult :=
  if ts = .emptyTok then ⟨false, "", none⟩
  else
    match jwtParse true jwtSecret now ts with
    | none => ⟨false, "", none⟩
    | some c =>
      match c.sub with
      | none => ⟨false, "", none⟩
      | some uid => ⟨true, uid, none⟩

/-- Error values created by `errors.New` in the auth service package. -/
inductive AuthErr
  | invalidCredentials
  | userAlreadyExists
  | userNotFound
deriving DecidableEq, Repr

/-- `mockAuthService.ValidateToken`: parse with the configured secret (its
keyfunc does not filter the signing method), fail with `ErrInvalidCredentials`
on any parse/validity/claims problem, otherwise return the `sub` claim. -/
def mockAuthService.ValidateToken (secret : String) (now : Int) (ts : TokenStr) :
    Except AuthErr String :=
  match jwtParse false secret now ts with
  | none => .error .invalidCredentials
  | some c =>
    match c.sub with
    | none => .error .invalidCredentials
    | some uid => .ok uid

/-- `mockAuthService.Authenticate`: look the user up by email in the mock map
and compare the stored plaintext password; both failure causes return
`ErrInvalidCredentials`. -/
structure MockAuthUser where
  id : String
  email : String
  password : String
  name : String
  createdAt : Int
deriving DecidableEq, Repr

def mockAuthService.Authenticate (users : List MockAuthUser) (email password : String) :
    Except AuthErr String :=
  match users.find? (fun u => u.email == email) with
  | none => .error .invalidCredentials
  | some u =>
    if u.password ≠ password then .error .invalidCredentials
    else .ok u.id

/-- ASCII character class `[a-zA-Z0-9._%+\-]` of the mock registration email
pattern (local part). -/
def isLocalChar (c : Char) : Bool :=
  c.isAlpha || c.isDigit || c == '.' || c == '_' || c == '%' || c == '+' || c == '-'

/-- ASCII character class `[a-zA-Z0-9.\-]` of the mock registration email
pattern (domain part). -/
def isDomChar (c : Char) : Bool :=
  c.isAlpha || c.isDigit || c == '.' || c == '-'

/-- `[a-zA-Z]{2,}`: the top-level-domain part of the pattern. -/
def isTldOk (t : List Char) : Bool :=
  2 ≤ t.length && t.all (fun c => c.isAlpha)

/-- Match of `[a-zA-Z0-9.\-]+\.[a-zA-Z]{2,}` against a whole character list:
some split places a nonempty run of domain characters before a literal dot
followed by the top-level domain. -/
def domMatch (m : List Char) : Bool :=
  (List.range m.length).any (fun i =>
    decide (0 < i) && (m.take i).all isDomChar &&
      (match m.drop i with
       | '.' :: t => isTldOk t
       | _ => false))

/-- Full anchored match of the Go regexp
`^[a-zA-Z0-9._%+\-]+@[a-zA-Z0-9.\-]+\.[a-zA-Z]{2,}$` used by
`mockAuthService.Register`: some split places a nonempty run of local-part
characters before a literal `@` followed by a matching domain. Both character
classes exclude `@`, so the split at the `@` is exactly the regexp's. -/
def emailMatch (s : String) : Bool :=
  (List.range s.data.length).any (fun i =>
    decide (0 < i) && (s.data.take i).all isLocalChar &&
      (match s.data.drop i with
       | '@' :: rest => domMatch rest
       | _ => false))

/-- `mockAuthService.Register`, in source order: reject a non-matching email
with `ErrInvalidCredentials`; reject an already-registered email with
`ErrUserAlreadyExists`; reject a password of fewer than 6 bytes with
`ErrInvalidCredentials`; otherwise insert the user under the derived id
`"mock-" + replaceAll email "@" "-at-"`. Returns the result together with the
store after the call. -/
def mockAuthService.Register (users : List MockAuthUser) (now : Int)
    (email password nm : String) : Except AuthErr String × List MockAuthUser :=
  if emailMatch email = false then (.error .invalidCredentials, users)
  else if (users.find? (fun u => u.email == email)).isSome then (.error .userAlreadyExists, users)
  else if password.utf8ByteSize < 6 then (.error .invalidCredentials, users)
  else
    let uid := "mock-" ++ email.replace "@" "-at-"
    (.ok uid, users ++ [⟨uid, email, password, nm, now⟩])

/-- A row of the live credential store (auth repository), with the bcrypt
password hash abstracted to an opaque string. -/
structure RepoUser where
  id : String
  email : String
  passwordHash : String
  name : String
deriving DecidableEq, Repr

/-- `authService.Authenticate` (live): look the user up by email through the
repository (the backing store abstracted as a list) and verify the password
against the stored hash (bcrypt comparison abstracted as the predicate
`verify`); both failure causes return `ErrInvalidCredentials`. -/
def authService.Authenticate (store : List RepoUser) (verify : String → String → Bool)
    (email password : String) : Except AuthErr String :=
  match store.find? (fun u => u.email == email) with
  | none => .error .invalidCredentials
  | some u =>
    if verify u.passwordHash password = false then .error .invalidCredentials
    else .ok u.id

/-- `authService.Register` (live, success path of the repository): only a
duplicate-email check, then the repository hashes the password (abstracted as
`hash`) and stores the record under a freshly generated id `newId`. No email
format or password length validation is performed on this path. -/
def authService.Register (store : List RepoUser) (hash : String → String) (newId : String)
    (email password nm : String) : Except AuthErr String × List RepoUser :=
  if store.any (fun u => u.email == email) then (.error .userAlreadyExists, store)
  else (.ok newId, store ++ [⟨newId, email, hash password, nm⟩])

/-- A user record of the user service layer. -/
structure User where
  id : String
  email : String
  name : String
  createdAt : Int
  updatedAt : Int
deriving DecidableEq, Repr

/-- The single error value `errors.New("user not found")` of the user service
package. -/
inductive UserErr
  | userNotFound
deriving DecidableEq, Repr

def mockUserService.ErrUserNotFound : UserErr := .userNotFound

/-- `var ErrUserAlreadyExists = ErrUserNotFound` in the user service package:
the duplicate-email error is an alias of the not-found error value, so the two
compare equal wherever the server tests `err == service.ErrUserNotFound`. -/
def mockUserService.ErrUserAlreadyExists : UserErr := mockUserService.ErrUserNotFound

/-- `mockUserService.GetUser`: lookup by id in the mock map. -/
def mockUserService.GetUser (st : List User) (id : String) : Except UserErr User :=
  match st.find? (fun u => u.id == id) with
  | none => .error mockUserService.ErrUserNotFound
  | some u => .ok u

/-- `mockUserService.UpdateUser`: not-found if the id is absent; duplicate
check over all stored users (`u.Email == email && u.ID != id`); otherwise set
name, email and the update timestamp in place. Returns the result together
with the store after the call. -/
def mockUserService.UpdateUser (st : List User) (id nm email : String) (now : Int) :
    Except UserErr User × List User :=
  match st.find? (fun u => u.id == id) with
  | none => (.error mockUserService.ErrUserNotFound, st)
  | some u =>
    if st.any (fun v => v.email == email && v.id != id) then
      (.error mockUserService.ErrUserAlreadyExists, st)
    else
      let u2 : User := { u with name := nm, email := email, updatedAt := now }
      (.ok u2, st.map (fun v => if v.id == id then u2 else v))

/-- `mockUserService.DeleteUser`: not-found if the id is absent, otherwise
remove the entry from the map. Returns the result together with the store
after the call. -/
def mockUserService.DeleteUser (st : List User) (id : String) :
    Except UserErr Unit × List User :=
  match st.find? (fun u => u.id == id) with
  | none => (.error mockUserService.ErrUserNotFound, st)
  | some _ => (.ok (), st.filter (fun u => u.id != id))

/-- `mockUserService.ListUsers`: default `page` to 1 when `page < 1`, default
`pageSize` to 10 when outside `[1,100]`, then return the slice
`[start : start+pageSize]` of the stored users (clamped to the total) together
with the total count; a start at or past the total yields the empty slice. -/
def mockUserService.ListUsers (st : List User) (page pageSize : Int) : List User × Int :=
  let p := if page < 1 then 1 else page
  let ps := if pageSize < 1 ∨ pageSize > 100 then 10 else pageSize
  let total : Int := st.length
  let start := (p - 1) * ps
  if start ≥ total then ([], total)
  else ((st.drop start.toNat).take ps.toNat, total)

/-- `UserServer.UpdateUser` over the mock user service, taking the outcome of
`authenticateOrBypass` as input: an authentication failure propagates; a
requester that is neither the target id nor the literal `"mock-bypass"` gets
`PermissionDenied` before the service runs; a service error is mapped to
`NotFound` when it equals `service.ErrUserNotFound` and to `Internal`
otherwise. Returns the response together with the store after the call. -/
def UserServer.UpdateUser (auth : Except Code String) (st : List User)
    (reqId reqName reqEmail : String) (now : Int) : Except Code User × List User :=
  match auth with
  | .error c => (.error c, st)
  | .ok userID =>
    if userID ≠ reqId ∧ userID ≠ "mock-bypass" then (.error .permissionDenied, st)
    else
      match mockUserService.UpdateUser st reqId reqName reqEmail now with
      | (.error e, st2) =>
        if e = mockUserService.ErrUserNotFound then (.error .notFound, st2)
        else (.error .internal, st2)
      | (.ok u, st2) => (.ok u, st2)

/-- `UserServer.DeleteUser` over the mock user service, with the same
authentication, ownership gate and error mapping as `UserServer.UpdateUser`;
success returns `{success:true}`. -/
def UserServer.DeleteUser (auth : Except Code String) (st : List User) (reqId : String) :
    Except Code Bool × List User :=
  match auth with
  | .error c => (.error c, st)
  | .ok userID =>
    if userID ≠ reqId ∧ userID ≠ "mock-bypass" then (.error .permissionDenied, st)
    else
      match mockUserService.DeleteUser st reqId with
      | (.error e, st2) =>
        if e = mockUserService.ErrUserNotFound then (.error .notFound, st2)
        else (.error .internal, st2)
      | (.ok _, st2) => (.ok true, st2)

/-- `UserServer.authenticate`: incoming metadata is `none` when the request
context carries no metadata, otherwise the list of `authorization` header
values. Missing metadata or an empty value list is `Unauthenticated`; the
first value is stripped of a leading `"Bearer "` (when longer than 7
characters) and handed to the active validator `validate` (the auth client
when present, the local JWT validator otherwise); a validator error is
`Internal`, an invalid outcome is `Unauthenticated`, a valid one returns the
user id. -/
def UserServer.authenticate (validate : String → VResult) (md : Option (List String)) :
    Except Code String :=
  match md with
  | none => .error .unauthenticated
  | some values =>
    match values with
    | [] => .error .unauthenticated
    | v :: _ =>
      let token := if v.length > 7 ∧ v.take 7 = "Bearer " then v.drop 7 else v
      let r := validate token
      match r.err with
      | some _ => .error .internal
      | none =>
        if r.valid = true then .ok r.userID
        else .error .unauthenticated

/-- `UserServer.authenticateOrBypass`: when the server was built in mock mode
and `BYPASS_AUTH` is `"true"`, skip authentication entirely and act as the
sentinel principal `"mock-bypass"`; otherwise run `UserServer.authenticate`. -/
def UserServer.authenticateOrBypass (useMockMode bypassAuth : Bool)
    (validate : String → VResult) (md : Option (List String)) : Except Code String :=
  if useMockMode = true ∧ bypassAuth = true then .ok "mock-bypass"
  else UserServer.authenticate validate md

/-- Helper: an expired token never parses as valid, whatever the keyfunc does. -/
theorem jwtParse_eq_none_of_expired (cm : Bool) (secret : String) (now : Int)
    (t : SignedToken) (e : Int) (he : t.claims.exp = some e) (hle : e ≤ now) :
    jwtParse cm secret now (.tok t) = none := by
  have hexp : expOk now t.claims = false := by
    simp [expOk, he]
    omega
  by_cases h1 : cm = true ∧ t.alg ≠ .hs256
  · simp [jwtParse, h1]
  · simp [jwtParse, h1, hexp]

/-- Helper: a token signed with a different secret never parses as valid. -/
theorem jwtParse_eq_none_of_wrong_secret (cm : Bool) (secret : String) (now : Int)
    (t : SignedToken) (h : t.sig.1 ≠ secret) :
    jwtParse cm secret now (.tok t) = none := by
  have hsig : t.sig ≠ hmacSig secret t.claims := by
    intro hcontra
    exact h (by rw [hcontra]; rfl)
  by_cases h1 : cm = true ∧ t.alg ≠ .hs256
  · simp [jwtParse, h1]
  · simp [jwtParse, h1, hsig]

/-- Helper: on a non-empty token whose parse fails, `AuthServer.ValidateToken`
returns the normal outcome `{valid:false, userId:""}`. -/
theorem AuthServer.validateToken_of_parse_none (secret : String) (now : Int)
    (ts : TokenStr) (hne : ts ≠ .emptyTok) (h : jwtParse true secret now ts = none) :
    AuthServer.ValidateToken secret now ts = .ok ⟨false, ""⟩ := by
  simp [AuthServer.ValidateToken, hne, h]

/-- Helper: a successful parse can only come from a decodable HS256 token whose
signature was made with the validator's secret over its own claims, within its
expiry. -/
theorem jwtParse_eq_some (cm : Bool) (secret : String) (now : Int) (ts : TokenStr)
    (c : Claims) (h : jwtParse cm secret now ts = some c) :
    ∃ t, ts = .tok t ∧ t.claims = c ∧ t.alg = .hs256 ∧
      t.sig = hmacSig secret t.claims ∧ expOk now t.claims = true := by
  cases ts with
  | emptyTok => simp [jwtParse] at h
  | garbled => simp [jwtParse] at h
  | tok t =>
    refine ⟨t, rfl, ?_⟩
    simp only [jwtParse] at h
    split at h
    · exact absurd h (by simp)
    · split at h
      · next hcond =>
        obtain ⟨h1, h2, h3⟩ := hcond
        exact ⟨Option.some.inj h, h1, h2, h3⟩
      · exact absurd h (by simp)

/-- Claim C1: validating a token immediately after it was issued for a
principal id, with the same shared secret and before its expiry, yields
`{valid:true, principalId:id}`: `AuthServer.generateToken` followed by
`AuthServer.ValidateToken` round-trips the subject claim. -/
theorem c1_issue_validate_roundtrip (secret userID : String) (expiration iat now : Int)
    (h : now < iat + expiration) :
    AuthServer.ValidateToken secret now (AuthServer.generateToken secret expiration iat userID)
      = .ok ⟨true, userID⟩ := by
  simp [AuthServer.ValidateToken, AuthServer.generateToken, jwtParse, hmacSig, expOk, h]

/-- Witness for C1 at a concrete instant before expiry. -/
theorem c1_issue_validate_roundtrip_witness :
    (0 : Int) < 0 + 3600 ∧
    AuthServer.ValidateToken "shared-secret" 0
        (AuthServer.generateToken "shared-secret" 3600 0 "user-1")
      = .ok ⟨true, "user-1"⟩ :=
  ⟨by decide, c1_issue_validate_roundtrip "shared-secret" "user-1" 3600 0 0 (by decide)⟩

/-- Claim C2: a token whose expiry has passed, and a token signed with a secret
other than the validator's, are both answered by `AuthServer.ValidateToken`
with the normal outcome `{valid:false, principalId:""}` — never an error and
never `{valid:true}`. -/
theorem c2_expired_or_wrong_secret_invalid (secret : String) (now : Int) (t : SignedToken) :
    (∀ e, t.claims.exp = some e → e ≤ now →
      AuthServer.ValidateToken secret now (.tok t) = .ok ⟨false, ""⟩) ∧
    (t.sig.1 ≠ secret →
      AuthServer.ValidateToken secret now (.tok t) = .ok ⟨false, ""⟩) := by
  constructor
  · intro e he hle
    exact AuthServer.validateToken_of_parse_none secret now (.tok t) (by simp)
      (jwtParse_eq_none_of_expired true secret now t e he hle)
  · intro hs
    exact AuthServer.validateToken_of_parse_none secret now (.tok t) (by simp)
      (jwtParse_eq_none_of_wrong_secret true secret now t hs)

/-- Witness for C2: a concrete token expired at time 5 validated at time 10,
and a concrete token signed with a different secret. -/
theorem c2_expired_or_wrong_secret_invalid_witness :
    AuthServer.ValidateToken "s" 10
        (.tok ⟨⟨some "u", some 5, some 0⟩, .hs256, hmacSig "s" ⟨some "u", some 5, some 0⟩⟩)
      = .ok ⟨false, ""⟩ ∧
    AuthServer.ValidateToken "s" 0
        (.tok ⟨⟨some "u", some 99, some 0⟩, .hs256, hmacSig "other" ⟨some "u", some 99, some 0⟩⟩)
      = .ok ⟨false, ""⟩ :=
  ⟨(c2_expired_or_wrong_secret_invalid "s" 10
      ⟨⟨some "u", some 5, some 0⟩, .hs256, hmacSig "s" ⟨some "u", some 5, some 0⟩⟩).1
      5 rfl (by decide),
   (c2_expired_or_wrong_secret_invalid "s" 0
      ⟨⟨some "u", some 99, some 0⟩, .hs256, hmacSig "other" ⟨some "u", some 99, some 0⟩⟩).2
      (by decide)⟩

/-- Counterexample to C3 as stated: `AuthServer.ValidateToken` answers an
empty token with an `InvalidArgument` error, not with `{valid:false}`. -/
theorem c3_counterexample :
    AuthServer.ValidateToken "secret" 0 .emptyTok = .error .invalidArgument := by
  decide

/-- Claim C3 as amended: the local `JWTValidator.ValidateToken` never returns
an error and answers the empty token with `{valid:false}`, and
`AuthServer.ValidateToken` never fails with an error on any non-empty token;
but `AuthServer.ValidateToken` rejects the empty token with an
`InvalidArgument` error instead of `{valid:false}`. -/
theorem c3_amended_no_error_for_routine_invalidity :
    (∀ (secret : String) (now : Int) (ts : TokenStr), ts ≠ .emptyTok →
      ∃ r, AuthServer.ValidateToken secret now ts = .ok r) ∧
    (∀ (secret : String) (now : Int) (ts : TokenStr),
      (JWTValidator.ValidateToken secret now ts).err = none) ∧
    (∀ (secret : String) (now : Int),
      JWTValidator.ValidateToken secret now .emptyTok = ⟨false, "", none⟩) := by
  refine ⟨?_, ?_, ?_⟩
  · intro secret now ts hne
    rw [AuthServer.ValidateToken, if_neg hne]
    cases jwtParse true secret now ts with
    | none => exact ⟨_, rfl⟩
    | some c =>
      obtain ⟨csub, cexp, ciat⟩ := c
      cases csub <;> exact ⟨_, rfl⟩
  · intro secret now ts
    by_cases hne : ts = .emptyTok
    · simp [JWTValidator.ValidateToken, hne]
    · rw [JWTValidator.ValidateToken, if_neg hne]
      cases jwtParse true secret now ts with
      | none => rfl
      | some c =>
        obtain ⟨csub, cexp, ciat⟩ := c
        cases csub <;> rfl
  · intro secret now
    simp [JWTValidator.ValidateToken]

/-- Witness for C3 as amended, at a concrete garbled token. -/
theorem c3_amended_witness :
    TokenStr.garbled ≠ TokenStr.emptyTok ∧
    ∃ r, AuthServer.ValidateToken "secret" 0 .garbled = .ok r :=
  ⟨by decide, c3_amended_no_error_for_routine_invalidity.1 "secret" 0 .garbled (by decide)⟩

/-- Counterexample to C7 as stated: a token minted with the shared secret for
the subject `"mock-bypass"` validates to `{valid:true}` with the sentinel as
principal id. -/
theorem c7_counterexample :
    JWTValidator.ValidateToken "shared-secret" 0
        (AuthServer.generateToken "shared-secret" 3600 0 "mock-bypass")
      = ⟨true, "mock-bypass", none⟩ := by
  decide

/-- Claim C7 as amended: validation does not reserve the sentinel. A validator
(local JWT validator or the mock issuer path) reports `{valid:true, p}` exactly
for a decodable token signed with the validator's own shared secret whose
`sub` claim is `p` — so `p = "mock-bypass"` arises whenever such a token
carries the sentinel as its subject, and nothing in validation prevents it. -/
theorem c7_amended_sentinel_not_reserved (secret : String) (now : Int)
    (ts : TokenStr) (p : String) :
    (JWTValidator.ValidateToken secret now ts = ⟨true, p, none⟩ →
      ∃ t, ts = .tok t ∧ t.claims.sub = some p ∧ t.sig = hmacSig secret t.claims) ∧
    (mockAuthService.ValidateToken secret now ts = .ok p →
      ∃ t, ts = .tok t ∧ t.claims.sub = some p ∧ t.sig = hmacSig secret t.claims) := by
  constructor
  · intro h
    by_cases hne : ts = .emptyTok
    · rw [JWTValidator.ValidateToken, if_pos hne] at h
      exact absurd h (by simp)
    · rw [JWTValidator.ValidateToken, if_neg hne] at h
      cases hj : jwtParse true secret now ts with
      | none => rw [hj] at h; exact absurd h (by simp)
      | some c =>
        rw [hj] at h
        obtain ⟨t, ht, hc, -, hsig, -⟩ := jwtParse_eq_some true secret now ts c hj
        obtain ⟨csub, cexp, ciat⟩ := c
        cases csub with
        | none => exact absurd h (by simp)
        | some uid =>
          have huid : uid = p := by
            have h2 := congrArg VResult.userID h
            simpa using h2
          refine ⟨t, ht, ?_, hsig⟩
          rw [hc, huid]
  · intro h
    rw [mockAuthService.ValidateToken] at h
    cases hj : jwtParse false secret now ts with
    | none => rw [hj] at h; exact absurd h (by simp)
    | some c =>
      rw [hj] at h
      obtain ⟨t, ht, hc, -, hsig, -⟩ := jwtParse_eq_some false secret now ts c hj
      obtain ⟨csub, cexp, ciat⟩ := c
      cases csub with
      | none => exact absurd h (by simp)
      | some uid =>
        have huid : uid = p := Except.ok.inj h
        refine ⟨t, ht, ?_, hsig⟩
        rw [hc, huid]

/-- Witness for C7 as amended: the minted sentinel token of the counterexample
is indeed a token carrying `sub = "mock-bypass"` signed with the shared
secret. -/
theorem c7_amended_witness :
    ∃ t, AuthServer.generateToken "shared-secret" 3600 0 "mock-bypass" = .tok t ∧
      t.claims.sub = some "mock-bypass" ∧ t.sig = hmacSig "shared-secret" t.claims :=
  (c7_amended_sentinel_not_reserved "shared-secret" 0
      (AuthServer.generateToken "shared-secret" 3600 0 "mock-bypass") "mock-bypass").1
    (by decide)

/-- Claim C4: for Update and Delete, an authenticated principal that differs
from the target record's id and is not the bypass sentinel gets
`PermissionDenied` with the store unchanged; the record's own principal passes
the ownership gate, so with the record present Delete succeeds and Update
succeeds whenever the new email is not held by another user. -/
theorem c4_ownership_rule (st : List User) (b reqId nm em : String) (now : Int) :
    (b ≠ reqId ∧ b ≠ "mock-bypass" →
      UserServer.UpdateUser (.ok b) st reqId nm em now = (.error .permissionDenied, st) ∧
      UserServer.DeleteUser (.ok b) st reqId = (.error .permissionDenied, st)) ∧
    (∀ u, st.find? (fun v => v.id == reqId) = some u →
      UserServer.DeleteUser (.ok reqId) st reqId
          = (.ok true, st.filter (fun v => v.id != reqId)) ∧
      (st.any (fun v => v.email == em && v.id != reqId) = false →
        UserServer.UpdateUser (.ok reqId) st reqId nm em now
          = (.ok { u with name := nm, email := em, updatedAt := now },
             st.map (fun v =>
               if v.id == reqId then { u with name := nm, email := em, updatedAt := now }
               else v)))) := by
  constructor
  · intro hb
    constructor
    · simp only [UserServer.UpdateUser]
      rw [if_pos hb]
    · simp only [UserServer.DeleteUser]
      rw [if_pos hb]
  · intro u hu
    have hself : ¬(reqId ≠ reqId ∧ reqId ≠ "mock-bypass") := by simp
    constructor
    · simp only [UserServer.DeleteUser]
      rw [if_neg hself]
      simp only [mockUserService.DeleteUser]
      rw [hu]
    · intro hem
      simp only [UserServer.UpdateUser]
      rw [if_neg hself]
      simp only [mockUserService.UpdateUser]
      rw [hu]
      simp [hem]

/-- Concrete two-user store for the C4 witness. -/
def c4Store : List User :=
  [⟨"a", "a@example.com", "Alice", 0, 0⟩, ⟨"b", "b@example.com", "Bob", 0, 0⟩]

/-- Witness for C4: principal `b` on target `a` is denied for both operations;
principal `a` on its own record deletes and updates successfully. -/
theorem c4_ownership_rule_witness :
    UserServer.UpdateUser (.ok "b") c4Store "a" "Al" "x@example.com" 5
      = (.error .permissionDenied, c4Store) ∧
    UserServer.DeleteUser (.ok "b") c4Store "a" = (.error .permissionDenied, c4Store) ∧
    UserServer.DeleteUser (.ok "a") c4Store "a"
      = (.ok true, c4Store.filter (fun v => v.id != "a")) ∧
    UserServer.UpdateUser (.ok "a") c4Store "a" "Al" "x@example.com" 5
      = (.ok ⟨"a", "x@example.com", "Al", 0, 5⟩,
         c4Store.map (fun v => if v.id == "a" then ⟨"a", "x@example.com", "Al", 0, 5⟩ else v)) :=
  ⟨((c4_ownership_rule c4Store "b" "a" "Al" "x@example.com" 5).1 (by decide)).1,
   ((c4_ownership_rule c4Store "b" "a" "Al" "x@example.com" 5).1 (by decide)).2,
   ((c4_ownership_rule c4Store "a" "a" "Al" "x@example.com" 5).2
      ⟨"a", "a@example.com", "Alice", 0, 0⟩ (by decide)).1,
   ((c4_ownership_rule c4Store "a" "a" "Al" "x@example.com" 5).2
      ⟨"a", "a@example.com", "Alice", 0, 0⟩ (by decide)).2 (by decide)⟩

/-- Claim C5: with mock mode and bypass both active, every request — metadata
or not — is processed as the sentinel `"mock-bypass"`, which the ownership
gate never denies, so any record may be mutated; with mock mode active and
bypass inactive, a request with no authorization metadata (or an empty header
list) is rejected `Unauthenticated`; and with mock mode inactive the bypass
branch never runs — the call is exactly `UserServer.authenticate`, so bypass
never activates against the live store. -/
theorem c5_bypass_requires_mock_mode (validate : String → VResult)
    (md : Option (List String)) (st : List User) (reqId nm em : String) (now : Int)
    (bypassAuth : Bool) :
    UserServer.authenticateOrBypass true true validate md = .ok "mock-bypass" ∧
    (UserServer.UpdateUser (.ok "mock-bypass") st reqId nm em now).1
      ≠ .error .permissionDenied ∧
    UserServer.authenticateOrBypass true false validate none = .error .unauthenticated ∧
    UserServer.authenticateOrBypass true false validate (some []) = .error .unauthenticated ∧
    UserServer.authenticateOrBypass false bypassAuth validate md
      = UserServer.authenticate validate md := by
  refine ⟨?_, ?_, ?_, ?_, ?_⟩
  · simp [UserServer.authenticateOrBypass]
  · simp only [UserServer.UpdateUser]
    have hid : ¬(("mock-bypass" : String) ≠ reqId ∧ ("mock-bypass" : String) ≠ "mock-bypass") := by
      simp
    rw [if_neg hid]
    rcases hupd : mockUserService.UpdateUser st reqId nm em now with ⟨res, st2⟩
    cases res with
    | error e =>
      by_cases he : e = mockUserService.ErrUserNotFound
      · simp [he]
      · simp [he]
    | ok u => simp
  · simp [UserServer.authenticateOrBypass, UserServer.authenticate]
  · simp [UserServer.authenticateOrBypass, UserServer.authenticate]
  · simp [UserServer.authenticateOrBypass]

/-- Claim C6: login failure is uniform. When one email is unregistered and
another is registered but given a wrong password, both calls fail with the
same error value `ErrInvalidCredentials` — in the substitute (mock)
implementation and in the live one — so the two causes are indistinguishable
from the returned error. -/
theorem c6_uniform_login_failure (users : List MockAuthUser) (store : List RepoUser)
    (verify : String → String → Bool) (e1 p1 e2 p2 : String) :
    (users.find? (fun u => u.email == e1) = none →
      ∀ u, users.find? (fun v => v.email == e2) = some u → u.password ≠ p2 →
        mockAuthService.Authenticate users e1 p1 = .error .invalidCredentials ∧
        mockAuthService.Authenticate users e2 p2 = .error .invalidCredentials ∧
        mockAuthService.Authenticate users e1 p1 = mockAuthService.Authenticate users e2 p2) ∧
    (store.find? (fun u => u.email == e1) = none →
      ∀ u, store.find? (fun v => v.email == e2) = some u → verify u.passwordHash p2 = false →
        authService.Authenticate store verify e1 p1 = .error .invalidCredentials ∧
        authService.Authenticate store verify e2 p2 = .error .invalidCredentials ∧
        authService.Authenticate store verify e1 p1
          = authService.Authenticate store verify e2 p2) := by
  constructor
  · intro h1 u h2 hp
    have ha : mockAuthService.Authenticate users e1 p1 = .error .invalidCredentials := by
      simp only [mockAuthService.Authenticate]
      rw [h1]
    have hb : mockAuthService.Authenticate users e2 p2 = .error .invalidCredentials := by
      simp only [mockAuthService.Authenticate]
      rw [h2]
      simp [hp]
    exact ⟨ha, hb, ha.trans hb.symm⟩
  · intro h1 u h2 hv
    have ha : authService.Authenticate store verify e1 p1 = .error .invalidCredentials := by
      simp only [authService.Authenticate]
      rw [h1]
    have hb : authService.Authenticate store verify e2 p2 = .error .invalidCredentials := by
      simp only [authService.Authenticate]
      rw [h2]
      simp [hv]
    exact ⟨ha, hb, ha.trans hb.symm⟩

/-- Concrete single-user stores for the C6 witness. -/
def c6MockUsers : List MockAuthUser := [⟨"id-2", "known@example.com", "right-pass", "K", 0⟩]

def c6Store : List RepoUser := [⟨"id-9", "known@example.com", "HASH", "K"⟩]

/-- Witness for C6: unknown email and wrong password produce the identical
error in both implementations. -/
theorem c6_uniform_login_failure_witness :
    mockAuthService.Authenticate c6MockUsers "unknown@example.com" "x"
      = .error .invalidCredentials ∧
    mockAuthService.Authenticate c6MockUsers "known@example.com" "wrong"
      = .error .invalidCredentials ∧
    authService.Authenticate c6Store (fun h p => h == p) "unknown@example.com" "x"
      = .error .invalidCredentials ∧
    authService.Authenticate c6Store (fun h p => h == p) "known@example.com" "wrong"
      = .error .invalidCredentials :=
  ⟨((c6_uniform_login_failure c6MockUsers c6Store (fun h p => h == p)
      "unknown@example.com" "x" "known@example.com" "wrong").1 (by decide)
      ⟨"id-2", "known@example.com", "right-pass", "K", 0⟩ (by decide) (by decide)).1,
   ((c6_uniform_login_failure c6MockUsers c6Store (fun h p => h == p)
      "unknown@example.com" "x" "known@example.com" "wrong").1 (by decide)
      ⟨"id-2", "known@example.com", "right-pass", "K", 0⟩ (by decide) (by decide)).2.1,
   ((c6_uniform_login_failure c6MockUsers c6Store (fun h p => h == p)
      "unknown@example.com" "x" "known@example.com" "wrong").2 (by decide)
      ⟨"id-9", "known@example.com", "HASH", "K"⟩ (by decide) (by decide)).1,
   ((c6_uniform_login_failure c6MockUsers c6Store (fun h p => h == p)
      "unknown@example.com" "x" "known@example.com" "wrong").2 (by decide)
      ⟨"id-9", "known@example.com", "HASH", "K"⟩ (by decide) (by decide)).2.1⟩

/-- Concrete two-user store exhibiting the C8 divergence. -/
def c8Store : List User :=
  [⟨"a", "a@example.com", "Alice", 0, 0⟩, ⟨"b", "b@example.com", "Bob", 0, 0⟩]

/-- Claim C8, evaluated at the failing input: in substitute mode the service
does flag an update to an email held by another principal with
`ErrUserAlreadyExists`, but that value is an alias of `ErrUserNotFound`
(`var ErrUserAlreadyExists = ErrUserNotFound`), so the server's error mapping
surfaces the duplicate-email failure as `NotFound` — not as the distinct
`AlreadyExists` of the shared taxonomy. -/
theorem c8_duplicate_email_maps_to_notfound :
    mockUserService.ErrUserAlreadyExists = mockUserService.ErrUserNotFound ∧
    (mockUserService.UpdateUser c8Store "a" "Alice" "b@example.com" 5).1
      = .error mockUserService.ErrUserAlreadyExists ∧
    UserServer.UpdateUser (.ok "a") c8Store "a" "Alice" "b@example.com" 5
      = (.error .notFound, c8Store) := by
  refine ⟨rfl, by decide, by decide⟩

/-- Claim C9: List normalizes its arguments — a page below 1 acts as page 1
and a page size outside [1,100] acts as 10 — and over any 25 stored
principals pages (1,10), (3,10) and (10,10) return 10, 5 and 0 items, each
with total 25. -/
theorem c9_list_normalization_and_counts (st : List User) (page pageSize : Int) :
    (page < 1 → mockUserService.ListUsers st page pageSize
      = mockUserService.ListUsers st 1 pageSize) ∧
    (pageSize < 1 ∨ pageSize > 100 → mockUserService.ListUsers st page pageSize
      = mockUserService.ListUsers st page 10) ∧
    (st.length = 25 →
      (mockUserService.ListUsers st 1 10).1.length = 10 ∧
      (mockUserService.ListUsers st 1 10).2 = 25 ∧
      (mockUserService.ListUsers st 3 10).1.length = 5 ∧
      (mockUserService.ListUsers st 3 10).2 = 25 ∧
      (mockUserService.ListUsers st 10 10).1.length = 0 ∧
      (mockUserService.ListUsers st 10 10).2 = 25) := by
  refine ⟨?_, ?_, ?_⟩
  · intro h
    simp only [mockUserService.ListUsers]
    rw [if_pos h, if_neg (show ¬(1 : Int) < 1 by omega)]
  · intro h
    simp only [mockUserService.ListUsers]
    rw [if_pos h, if_neg (show ¬((10 : Int) < 1 ∨ (10 : Int) > 100) by omega)]
  · intro h
    refine ⟨?_, ?_, ?_, ?_, ?_, ?_⟩ <;>
      simp [mockUserService.ListUsers, h, List.length_take, List.length_drop]

/-- Concrete 25-principal store for the C9 witness. -/
def c9Store : List User := List.replicate 25 ⟨"", "", "", 0, 0⟩

/-- Witness for C9 over a concrete store of 25 principals. -/
theorem c9_list_normalization_and_counts_witness :
    c9Store.length = 25 ∧
    (mockUserService.ListUsers c9Store 1 10).1.length = 10 ∧
    (mockUserService.ListUsers c9Store 3 10).1.length = 5 ∧
    (mockUserService.ListUsers c9Store 10 10).1.length = 0 ∧
    (mockUserService.ListUsers c9Store 10 10).2 = 25 :=
  ⟨by decide,
   ((c9_list_normalization_and_counts c9Store 1 10).2.2 (by decide)).1,
   ((c9_list_normalization_and_counts c9Store 1 10).2.2 (by decide)).2.2.1,
   ((c9_list_normalization_and_counts c9Store 1 10).2.2 (by decide)).2.2.2.2.1,
   ((c9_list_normalization_and_counts c9Store 1 10).2.2 (by decide)).2.2.2.2.2⟩

/-- The three principals seeded into the mock auth store by
`NewMockAuthService` (their relative creation instants are abstracted to 0,
which no claim observes). -/
def initialMockAuthUsers : List MockAuthUser :=
  [⟨"00000000-0000-0000-0000-000000000001", "admin@example.com", "admin123", "Admin User", 0⟩,
   ⟨"00000000-0000-0000-0000-000000000002", "user@example.com", "password123", "Regular User", 0⟩,
   ⟨"00000000-0000-0000-0000-000000000003", "test@example.com", "test123", "Test User", 0⟩]

/-- Counterexample to C10 as stated: registering an already-registered email
with a password shorter than 6 bytes returns `ErrUserAlreadyExists`, not the
invalid-credentials error — the duplicate check runs before the password
check. -/
theorem c10_counterexample :
    (mockAuthService.Register initialMockAuthUsers 0 "admin@example.com" "abc" "X").1
      = .error .userAlreadyExists ∧
    AuthErr.userAlreadyExists ≠ AuthErr.invalidCredentials := by
  exact ⟨by decide, by decide⟩

/-- Claim C10 as amended: in substitute mode, Register rejects every email
that does not match its built-in pattern with the invalid-credentials error
and the store unchanged; for an email that is not already registered it
rejects every password shorter than 6 bytes the same way; a registered email
returns the already-exists error before the password is examined. The live
Register performs neither check: with no duplicate it accepts any email and
password. -/
theorem c10_amended_validation_order (users : List MockAuthUser) (store : List RepoUser)
    (hash : String → String) (newId email password nm : String) (now : Int) :
    (emailMatch email = false →
      mockAuthService.Register users now email password nm
        = (.error .invalidCredentials, users)) ∧
    (users.find? (fun u => u.email == email) = none → password.utf8ByteSize < 6 →
      mockAuthService.Register users now email password nm
        = (.error .invalidCredentials, users)) ∧
    (store.any (fun u => u.email == email) = false →
      (authService.Register store hash newId email password nm).1 = .ok newId) := by
  refine ⟨?_, ?_, ?_⟩
  · intro h
    simp [mockAuthService.Register, h]
  · intro hf hp
    cases he : emailMatch email with
    | false => simp [mockAuthService.Register, he]
    | true => simp [mockAuthService.Register, he, hf, hp]
  · intro h
    simp [authService.Register, h]

/-- Witness for C10 as amended: a malformed email, a short password on a
fresh email, and the live path accepting both. -/
theorem c10_amended_validation_order_witness :
    mockAuthService.Register [] 0 "no-at-sign" "abcdef" "N"
      = (.error .invalidCredentials, []) ∧
    mockAuthService.Register [] 0 "a@b.co" "abc" "N"
      = (.error .invalidCredentials, []) ∧
    (authService.Register [] (fun s => s) "id-1" "no-at-sign" "abc" "N").1 = .ok "id-1" :=
  ⟨(c10_amended_validation_order [] [] (fun s => s) "id-1" "no-at-sign" "abcdef" "N" 0).1
      (by decide),
   (c10_amended_validation_order [] [] (fun s => s) "id-1" "a@b.co" "abc" "N" 0).2.1
      (by decide) (by decide),
   (c10_amended_validation_order [] [] (fun s => s) "id-1" "no-at-sign" "abc" "N" 0).2.2
      (by decide)⟩
